import Mathlib

/-!
Shallow embedding of the job execution engine of
machine-collaboration-utility (src/server/middleware/jobs/job.js) and of
the device-registry initialization (the Bots class), together with
theorems about the state machine, its side effects, and the command
handlers.

Conventions of the embedding:
* JavaScript `undefined`/`null` values are `Option` `none`; the literal
  `false` stored in the `fileUuid` slot of the public projection is also
  encoded as `none` (the source writes `false` exactly when the field is
  `undefined`).
* Mutation of the `Job` object is explicit state passing on `JobSt`.
* A thrown exception is an `err` field of type `Option String`
  (`some msg` = the exception that propagates to the caller).
* Observable side effects (database writes, socket broadcasts, device
  calls, error logs, state-machine transitions) are accumulated in a
  trace of `Effect`s, in program order.
* The outcome of each Device Command Port call is an input (`Env`), so a
  run of a command handler is a pure function of the job state and the
  environment.
-/

namespace MCU

/-- The nine job states of the transition table in job.js, plus the
implicit pseudo-state used by the FSM library before startup is modeled
by `Option JState` (`none` = the library state named none). -/
inductive JState where
  | ready
  | starting
  | running
  | pausing
  | paused
  | resuming
  | canceling
  | canceled
  | complete
deriving DecidableEq

/-- The event names of the FSM. `cancelDone` appears in the source
(`Job.prototype.cancel`) although the transition table has no row for
it; `startup` is the FSM library's implicit creation event. -/
inductive JEvent where
  | start
  | startFail
  | startDone
  | pause
  | pauseFail
  | pauseDone
  | resume
  | resumeFail
  | resumeDone
  | runningDone
  | cancel
  | cancelFail
  | cancelDone
  | startup
deriving DecidableEq

def stateName : JState → String
  | .ready => "ready"
  | .starting => "starting"
  | .running => "running"
  | .pausing => "pausing"
  | .paused => "paused"
  | .resuming => "resuming"
  | .canceling => "canceling"
  | .canceled => "canceled"
  | .complete => "complete"

def eventName : JEvent → String
  | .start => "start"
  | .startFail => "startFail"
  | .startDone => "startDone"
  | .pause => "pause"
  | .pauseFail => "pauseFail"
  | .pauseDone => "pauseDone"
  | .resume => "resume"
  | .resumeFail => "resumeFail"
  | .resumeDone => "resumeDone"
  | .runningDone => "runningDone"
  | .cancel => "cancel"
  | .cancelFail => "cancelFail"
  | .cancelDone => "cancelDone"
  | .startup => "startup"

/-- Substring test on char lists: JavaScript `hay.indexOf(needle) !== -1`. -/
def containsSub (needle : List Char) : List Char → Bool
  | [] => needle.isEmpty
  | c :: rest => needle.isPrefixOf (c :: rest) || containsSub needle rest

/-- The guard `event.indexOf('Done') !== -1` of the onenterstate callback. -/
def nameContainsDone (s : String) : Bool :=
  containsSub "Done".toList s.toList

/-- `const cancelable = ['running', 'paused', 'starting', 'pausing', 'resuming']`. -/
def cancelable : List JState :=
  [.running, .paused, .starting, .pausing, .resuming]

/-- The transition table `fsmSettings.events` of job.js, one clause per
row (the `cancel` row is expanded over the `cancelable` list). A pair
with no row yields `none`, which the FSM treats as an invalid
transition. -/
def transition : JState → JEvent → Option JState
  | .ready, .start => some .starting
  | .starting, .startFail => some .ready
  | .starting, .startDone => some .running
  | .running, .pause => some .pausing
  | .paused, .pause => some .paused
  | .pausing, .pauseFail => some .running
  | .pausing, .pauseDone => some .paused
  | .paused, .resume => some .resuming
  | .running, .resume => some .running
  | .resuming, .resumeFail => some .paused
  | .resuming, .resumeDone => some .running
  | .running, .runningDone => some .complete
  | .running, .cancel => some .canceling
  | .paused, .cancel => some .canceling
  | .starting, .cancel => some .canceling
  | .pausing, .cancel => some .canceling
  | .resuming, .cancel => some .canceling
  | .canceling, .cancelFail => some .canceled
  | _, _ => none

/-- The public projection built by `Job.prototype.getJob`: exactly the
fields botUuid, uuid, state, fileUuid, started, elapsed,
percentComplete. `fileUuid = none` encodes the literal `false` the
source substitutes for an undefined file. -/
structure Projection where
  botUuid : String
  uuid : String
  state : String
  fileUuid : Option String
  started : Option Nat
  elapsed : Option Nat
  percentComplete : Nat
deriving DecidableEq

/-- The attribute set written by `dbJob.updateAttributes` in the
onenterstate callback: state, fileUuid, started, elapsed (the raw
stopwatch milliseconds), percentComplete. -/
structure DbJobAttrs where
  state : JState
  fileUuid : Option String
  started : Option Nat
  elapsed : Nat
  percentComplete : Nat
deriving DecidableEq

/-- Observable side effects of a run, in program order. `transition`
records a successful state change of the FSM; `persist` a database
write through the Persistence Port; `broadcast` an `app.io.broadcast`
of the public projection; `deviceCall` an invocation of the Device
Command Port; `logError` a `logger.error` line. -/
inductive Effect where
  | persist (attrs : DbJobAttrs)
  | broadcast (p : Projection)
  | deviceCall (c : String)
  | logError (m : String)
  | transition (e : JEvent) (fromS toS : JState)
deriving DecidableEq

def Effect.isPersist : Effect → Bool
  | .persist _ => true
  | _ => false

def Effect.isBroadcast : Effect → Bool
  | .broadcast _ => true
  | _ => false

def Effect.isDeviceCall : Effect → Bool
  | .deviceCall _ => true
  | _ => false

/-- The mutable fields of a Job object that the engine reads or writes:
identity, FSM state, start timestamp, the never-reassigned `elapsed`
slot, the stopwatch (milliseconds and running flag), and the progress
percentage. -/
structure JobSt where
  botUuid : String
  uuid : String
  fileUuid : Option String
  fsmCurrent : JState
  started : Option Nat
  elapsed : Option Nat
  stopwatchMs : Nat
  stopwatchRunning : Bool
  percentComplete : Nat
deriving DecidableEq

/-- The environment of a run: the wall-clock time read by
`new Date().getTime()` and whether each Device Command Port operation
throws. -/
structure Env where
  now : Nat
  startJobFails : Bool
  pauseFails : Bool
  resumeFails : Bool
  cancelFails : Bool
deriving DecidableEq

/-- JavaScript truthiness of a possibly-undefined number (`!!x`). -/
def jsTruthyNum : Option Nat → Bool
  | none => false
  | some n => !(n == 0)

/-- `Job.prototype.getJob`. -/
def Job.getJob (j : JobSt) : Projection :=
  let state := stateName j.fsmCurrent
  let started := if jsTruthyNum j.started then j.started else none
  let elapsed :=
    if jsTruthyNum j.started then
      if j.stopwatchMs != 0 then some j.stopwatchMs else j.elapsed
    else none
  { botUuid := j.botUuid
    uuid := j.uuid
    state := state
    fileUuid := j.fileUuid
    started := started
    elapsed := elapsed
    percentComplete := j.percentComplete }

/-- The attributes passed to `dbJob.updateAttributes` in onenterstate. -/
def dbAttrs (j : JobSt) : DbJobAttrs :=
  { state := j.fsmCurrent
    fileUuid := j.fileUuid
    started := j.started
    elapsed := j.stopwatchMs
    percentComplete := j.percentComplete }

/-- The onenterstate callback of job.js, evaluated on the job state
after the transition. `fromS = none` is the FSM pseudo-state named none
(first machine initialization): no effect at all. Otherwise a database
write happens exactly when the event name contains the substring Done,
and a broadcast of the public projection always follows. -/
def onenterstate (j : JobSt) (e : JEvent) (fromS : Option JState) : List Effect :=
  match fromS with
  | none => []
  | some _ =>
    (if nameContainsDone (eventName e) then [Effect.persist (dbAttrs j)] else [])
      ++ [Effect.broadcast (Job.getJob j)]

/-- The error string built by `fsmSettings.error`, which is both logged
and thrown. -/
def fsmError (uuid : String) (e : JEvent) (s : JState) : String :=
  "Invalid job " ++ uuid ++ " state change on event " ++ eventName e
    ++ " from " ++ stateName s

/-- The event names declared in `fsmSettings.events`. `StateMachine.create`
defines one method on the fsm object per declared name; `cancelDone` is
not among them, so `this.fsm.cancelDone` is undefined in the source and
calling it raises a plain TypeError rather than going through the
configured error callback. -/
def declaredEvents : List JEvent :=
  [.start, .startFail, .startDone, .pause, .pauseFail, .pauseDone,
   .resume, .resumeFail, .resumeDone, .runningDone, .cancel, .cancelFail]

/-- The error raised by calling an fsm method the library never defined
(JavaScript: `this.fsm.cancelDone is not a function`). -/
def typeErrorMsg (e : JEvent) : String :=
  "TypeError: this.fsm." ++ eventName e ++ " is not a function"

/-- Result of one engine step: the job state afterward, the emitted
effects, and the exception that propagates to the caller, if any. -/
structure OpResult where
  job : JobSt
  effects : List Effect
  err : Option String
deriving DecidableEq

/-- Invoking one fsm method. For a declared event with a row for the
current state, the state changes and onenterstate runs; for a declared
event fired from a state with no row, the configured error handler
logs and throws, leaving the state unchanged. For an undeclared name
(`cancelDone`) the method does not exist: the call raises a bare
TypeError straight away — no error-callback log, no effect, state
unchanged. The library-internal `startup` event is modeled only through
`Job.initializeJob`, never through this function. -/
def fireEvent (j : JobSt) (e : JEvent) : OpResult :=
  if e ∈ declaredEvents then
    match transition j.fsmCurrent e with
    | some toS =>
      let j1 : JobSt := { j with fsmCurrent := toS }
      { job := j1
        effects := Effect.transition e j.fsmCurrent toS :: onenterstate j1 e (some j.fsmCurrent)
        err := none }
    | none =>
      { job := j
        effects := [Effect.logError (fsmError j.uuid e j.fsmCurrent)]
        err := some (fsmError j.uuid e j.fsmCurrent) }
  else
    { job := j, effects := [], err := some (typeErrorMsg e) }

/-- `Job.prototype.initialize`: the FSM is created in the given initial
state (defaulting to ready), started and elapsed are undefined,
percentComplete is 0, the stopwatch is fresh; the creation-time startup
event enters the initial state from the pseudo-state named none, so the
onenterstate callback emits nothing. -/
def Job.initializeJob (botUuid uuid : String) (fileUuid : Option String)
    (initialState : Option JState) : JobSt × List Effect :=
  let j0 : JobSt :=
    { botUuid := botUuid
      uuid := uuid
      fileUuid := fileUuid
      fsmCurrent := initialState.getD .ready
      started := none
      elapsed := none
      stopwatchMs := 0
      stopwatchRunning := false
      percentComplete := 0 }
  (j0, onenterstate j0 .startup none)

/-- `Job.prototype.start`. `this.fsm.start()` may throw (propagates);
inside the try block the device call may throw, in which case the catch
block fires startFail and logs. On device success the start timestamp
is recorded, the stopwatch started, and startDone fired; were startDone
to throw it would be caught by the same catch block. -/
def Job.start (env : Env) (j : JobSt) : OpResult :=
  let r1 := fireEvent j .start
  match r1.err with
  | some e => { job := r1.job, effects := r1.effects, err := some e }
  | none =>
    if env.startJobFails then
      let r2 := fireEvent r1.job .startFail
      match r2.err with
      | none =>
        { job := r2.job
          effects := r1.effects ++ [Effect.deviceCall "startJob"] ++ r2.effects
            ++ [Effect.logError "Job start failure"]
          err := none }
      | some e =>
        { job := r2.job
          effects := r1.effects ++ [Effect.deviceCall "startJob"] ++ r2.effects
          err := some e }
    else
      let j2 : JobSt := { r1.job with started := some env.now, stopwatchRunning := true }
      let r3 := fireEvent j2 .startDone
      match r3.err with
      | none =>
        { job := r3.job
          effects := r1.effects ++ [Effect.deviceCall "startJob"] ++ r3.effects
          err := none }
      | some _ =>
        let r4 := fireEvent r3.job .startFail
        match r4.err with
        | none =>
          { job := r4.job
            effects := r1.effects ++ [Effect.deviceCall "startJob"] ++ r3.effects
              ++ r4.effects ++ [Effect.logError "Job start failure"]
            err := none }
        | some e2 =>
          { job := r4.job
            effects := r1.effects ++ [Effect.deviceCall "startJob"] ++ r3.effects ++ r4.effects
            err := some e2 }

/-- `Job.prototype.pause`: early return when already paused; then
`this.fsm.pause()` (may throw, propagates); then the device pause call
in a try block whose catch fires pauseFail and logs; on success the
stopwatch stops and pauseDone fires. -/
def Job.pause (env : Env) (j : JobSt) : OpResult :=
  if j.fsmCurrent = .paused then { job := j, effects := [], err := none }
  else
    let r1 := fireEvent j .pause
    match r1.err with
    | some e => { job := r1.job, effects := r1.effects, err := some e }
    | none =>
      if env.pauseFails then
        let r2 := fireEvent r1.job .pauseFail
        match r2.err with
        | none =>
          { job := r2.job
            effects := r1.effects ++ [Effect.deviceCall "pause"] ++ r2.effects
              ++ [Effect.logError "Job pause failure"]
            err := none }
        | some e =>
          { job := r2.job
            effects := r1.effects ++ [Effect.deviceCall "pause"] ++ r2.effects
            err := some e }
      else
        let j2 : JobSt := { r1.job with stopwatchRunning := false }
        let r3 := fireEvent j2 .pauseDone
        match r3.err with
        | none =>
          { job := r3.job
            effects := r1.effects ++ [Effect.deviceCall "pause"] ++ r3.effects
            err := none }
        | some _ =>
          let r4 := fireEvent r3.job .pauseFail
          match r4.err with
          | none =>
            { job := r4.job
              effects := r1.effects ++ [Effect.deviceCall "pause"] ++ r3.effects
                ++ r4.effects ++ [Effect.logError "Job pause failure"]
              err := none }
          | some e2 =>
            { job := r4.job
              effects := r1.effects ++ [Effect.deviceCall "pause"] ++ r3.effects ++ r4.effects
              err := some e2 }

/-- `Job.prototype.resume`: early return when already running; then
`this.fsm.resume()` (may throw, propagates); then the device resume
call in a try block whose catch fires resumeFail and logs; on success
the stopwatch starts and resumeDone fires. -/
def Job.resume (env : Env) (j : JobSt) : OpResult :=
  if j.fsmCurrent = .running then { job := j, effects := [], err := none }
  else
    let r1 := fireEvent j .resume
    match r1.err with
    | some e => { job := r1.job, effects := r1.effects, err := some e }
    | none =>
      if env.resumeFails then
        let r2 := fireEvent r1.job .resumeFail
        match r2.err with
        | none =>
          { job := r2.job
            effects := r1.effects ++ [Effect.deviceCall "resume"] ++ r2.effects
              ++ [Effect.logError "Job resume failure"]
            err := none }
        | some e =>
          { job := r2.job
            effects := r1.effects ++ [Effect.deviceCall "resume"] ++ r2.effects
            err := some e }
      else
        let j2 : JobSt := { r1.job with stopwatchRunning := true }
        let r3 := fireEvent j2 .resumeDone
        match r3.err with
        | none =>
          { job := r3.job
            effects := r1.effects ++ [Effect.deviceCall "resume"] ++ r3.effects
            err := none }
        | some _ =>
          let r4 := fireEvent r3.job .resumeFail
          match r4.err with
          | none =>
            { job := r4.job
              effects := r1.effects ++ [Effect.deviceCall "resume"] ++ r3.effects
                ++ r4.effects ++ [Effect.logError "Job resume failure"]
              err := none }
          | some e2 =>
            { job := r4.job
              effects := r1.effects ++ [Effect.deviceCall "resume"] ++ r3.effects ++ r4.effects
              err := some e2 }

/-- `Job.prototype.cancel`: `this.fsm.cancel()` (may throw,
propagates); the device cancel call sits in an inner try whose catch
only logs; then the stopwatch stops and cancelDone fires; any throw in
the outer try is caught, logged, and answered by firing cancelFail. -/
def Job.cancel (env : Env) (j : JobSt) : OpResult :=
  let r1 := fireEvent j .cancel
  match r1.err with
  | some e => { job := r1.job, effects := r1.effects, err := some e }
  | none =>
    let dev := [Effect.deviceCall "cancel"]
      ++ (if env.cancelFails then [Effect.logError "Bot cannot be cancelled"] else [])
    let j2 : JobSt := { r1.job with stopwatchRunning := false }
    let r2 := fireEvent j2 .cancelDone
    match r2.err with
    | none =>
      { job := r2.job
        effects := r1.effects ++ dev ++ r2.effects
        err := none }
    | some _ =>
      let r3 := fireEvent r2.job .cancelFail
      match r3.err with
      | none =>
        { job := r3.job
          effects := r1.effects ++ dev ++ r2.effects
            ++ [Effect.logError "Job stop failure"] ++ r3.effects
          err := none }
      | some e2 =>
        { job := r3.job
          effects := r1.effects ++ dev ++ r2.effects
            ++ [Effect.logError "Job stop failure"] ++ r3.effects
          err := some e2 }

/-- Result of `Job.prototype.processCommand`: the job state afterward,
the effects, and either the reply (the public projection) or the thrown
error. -/
structure CmdResult where
  job : JobSt
  effects : List Effect
  reply : Except String Projection

/-- `Job.prototype.processCommand`: dispatch on the command string; on
each of the four known commands the handler runs and, if it does not
throw, the reply is `this.getJob()`; an unknown command throws an
unsupported-command message. -/
def Job.processCommand (env : Env) (j : JobSt) (command : String) : CmdResult :=
  if command = "start" then
    let r := Job.start env j
    match r.err with
    | none => { job := r.job, effects := r.effects, reply := .ok (Job.getJob r.job) }
    | some e => { job := r.job, effects := r.effects, reply := .error e }
  else if command = "pause" then
    let r := Job.pause env j
    match r.err with
    | none => { job := r.job, effects := r.effects, reply := .ok (Job.getJob r.job) }
    | some e => { job := r.job, effects := r.effects, reply := .error e }
  else if command = "resume" then
    let r := Job.resume env j
    match r.err with
    | none => { job := r.job, effects := r.effects, reply := .ok (Job.getJob r.job) }
    | some e => { job := r.job, effects := r.effects, reply := .error e }
  else if command = "cancel" then
    let r := Job.cancel env j
    match r.err with
    | none => { job := r.job, effects := r.effects, reply := .ok (Job.getJob r.job) }
    | some e => { job := r.job, effects := r.effects, reply := .error e }
  else
    { job := j, effects := [], reply := .error ("Command " ++ command ++ " is not supported") }

/-- The FSM event each known command string dispatches to first. -/
def commandEvent : String → Option JEvent
  | "start" => some .start
  | "pause" => some .pause
  | "resume" => some .resume
  | "cancel" => some .cancel
  | _ => none

/-- A persisted bot configuration record (the dataValues copied by
`Bots.initialize`); all settings are stored as strings in the source. -/
structure BotRecord where
  port : String
  name : String
  jogXSpeed : String
  jogYSpeed : String
  jogZSpeed : String
  jogESpeed : String
  tempE : String
  tempB : String
  speedRatioSetting : String
  eRatioSetting : String
  offsetX : String
  offsetY : String
  offsetZ : String
deriving DecidableEq

/-- The `initialBotObject` literal of the Bots class: the default
null-port placeholder record. -/
def initialBotObject : BotRecord :=
  { port := "null"
    name := "Default"
    jogXSpeed := "2000"
    jogYSpeed := "2000"
    jogZSpeed := "1000"
    jogESpeed := "120"
    tempE := "200"
    tempB := "60"
    speedRatioSetting := "1.0"
    eRatioSetting := "1.0"
    offsetX := "0"
    offsetY := "0"
    offsetZ := "0" }

/-- The registry-construction core of `Bots.initialize`: if the
database holds no bot records, create the default one and reload; then
build the live bot map from every record, keyed by its port. Returns
the database contents after initialization and the bot map as an
association list in insertion order. -/
def initializeBots (db : List BotRecord) : List BotRecord × List (String × BotRecord) :=
  let db1 := if db.length = 0 then db ++ [initialBotObject] else db
  (db1, db1.map (fun b => (b.port, b)))

/-- The property that processCommand resolves (does not throw) and its
reply is the public projection of the job state it leaves behind. -/
def commandOk (env : Env) (j : JobSt) (c : String) : Prop :=
  (Job.processCommand env j c).reply = .ok (Job.getJob (Job.processCommand env j c).job)

/-- A concrete job used to instantiate the theorems. -/
def sampleJob (s : JState) : JobSt :=
  { botUuid := "bot-1"
    uuid := "job-1"
    fileUuid := none
    fsmCurrent := s
    started := none
    elapsed := none
    stopwatchMs := 0
    stopwatchRunning := false
    percentComplete := 0 }

/-- An environment in which every device operation succeeds. -/
def sampleEnv : Env :=
  { now := 1000, startJobFails := false, pauseFails := false
    resumeFails := false, cancelFails := false }

/-- An environment in which every device operation throws. -/
def sampleEnvAllFail : Env :=
  { now := 1000, startJobFails := true, pauseFails := true
    resumeFails := true, cancelFails := true }

@[simp] theorem ncd_start : nameContainsDone (eventName JEvent.start) = false := by decide

@[simp] theorem ncd_startFail : nameContainsDone (eventName JEvent.startFail) = false := by decide

@[simp] theorem ncd_startDone : nameContainsDone (eventName JEvent.startDone) = true := by decide

@[simp] theorem ncd_pause : nameContainsDone (eventName JEvent.pause) = false := by decide

@[simp] theorem ncd_pauseFail : nameContainsDone (eventName JEvent.pauseFail) = false := by decide

@[simp] theorem ncd_pauseDone : nameContainsDone (eventName JEvent.pauseDone) = true := by decide

@[simp] theorem ncd_resume : nameContainsDone (eventName JEvent.resume) = false := by decide

@[simp] theorem ncd_resumeFail : nameContainsDone (eventName JEvent.resumeFail) = false := by decide

@[simp] theorem ncd_resumeDone : nameContainsDone (eventName JEvent.resumeDone) = true := by decide

@[simp] theorem ncd_runningDone : nameContainsDone (eventName JEvent.runningDone) = true := by decide

@[simp] theorem ncd_cancel : nameContainsDone (eventName JEvent.cancel) = false := by decide

@[simp] theorem ncd_cancelFail : nameContainsDone (eventName JEvent.cancelFail) = false := by decide

@[simp] theorem ncd_cancelDone : nameContainsDone (eventName JEvent.cancelDone) = true := by decide

@[simp] theorem ncd_startup : nameContainsDone (eventName JEvent.startup) = false := by decide

/-- C2: a declared event fired from a state with no matching row in
the transition table makes the engine log the fatal transition error
and raise the same error to the caller, leaving the job state
unchanged. -/
theorem invalid_event_logged_raised_state_unchanged (j : JobSt) (e : JEvent)
    (he : e ∈ declaredEvents) (h : transition j.fsmCurrent e = none) :
    fireEvent j e =
      { job := j
        effects := [Effect.logError (fsmError j.uuid e j.fsmCurrent)]
        err := some (fsmError j.uuid e j.fsmCurrent) } := by
  simp [fireEvent, he, h]

/-- C2 witness: firing pauseDone from ready is such an invalid event. -/
theorem invalid_event_logged_raised_state_unchanged_witness :
    fireEvent (sampleJob .ready) .pauseDone =
      { job := sampleJob .ready
        effects := [Effect.logError (fsmError "job-1" .pauseDone .ready)]
        err := some (fsmError "job-1" .pauseDone .ready) } :=
  invalid_event_logged_raised_state_unchanged (sampleJob .ready) .pauseDone (by decide) rfl

/-- C6: pause on an already-paused job returns before touching the FSM
or the device: no effect at all, no error, state unchanged. -/
theorem pause_on_paused_is_noop (env : Env) (j : JobSt) (h : j.fsmCurrent = .paused) :
    Job.pause env j = { job := j, effects := [], err := none } := by
  simp [Job.pause, h]

/-- C6 witness: pause on a concrete paused job. -/
theorem pause_on_paused_is_noop_witness :
    Job.pause sampleEnvAllFail (sampleJob .paused) =
      { job := sampleJob .paused, effects := [], err := none } :=
  pause_on_paused_is_noop sampleEnvAllFail (sampleJob .paused) rfl

/-- C7: start from any state other than ready throws the invalid
transition error, leaves the state unchanged, and performs no Device
Command Port call (its only effect is the error log). -/
theorem start_rejected_outside_ready (env : Env) (j : JobSt) (h : j.fsmCurrent ≠ .ready) :
    Job.start env j =
      { job := j
        effects := [Effect.logError (fsmError j.uuid .start j.fsmCurrent)]
        err := some (fsmError j.uuid .start j.fsmCurrent) } ∧
    ∀ ef ∈ (Job.start env j).effects, ef.isDeviceCall = false := by
  have hnone : transition j.fsmCurrent .start = none := by
    cases hs : j.fsmCurrent
    · exact absurd hs h
    all_goals rfl
  constructor
  · simp [Job.start, fireEvent, declaredEvents, hnone]
  · simp [Job.start, fireEvent, declaredEvents, hnone, Effect.isDeviceCall]

/-- C7 witness: start on a concrete running job is rejected with no
device call. -/
theorem start_rejected_outside_ready_witness :
    (Job.start sampleEnv (sampleJob .running) =
      { job := sampleJob .running
        effects := [Effect.logError (fsmError "job-1" .start .running)]
        err := some (fsmError "job-1" .start .running) } ∧
    ∀ ef ∈ (Job.start sampleEnv (sampleJob .running)).effects, ef.isDeviceCall = false) :=
  start_rejected_outside_ready sampleEnv (sampleJob .running) (by decide)

/-- C3: cancel from any cancelable state (running, paused, starting,
pausing, resuming) terminates without throwing and leaves the job in
the terminal canceled state, whatever the device cancel call does. -/
theorem cancel_always_reaches_canceled (env : Env) (j : JobSt)
    (h : j.fsmCurrent ∈ cancelable) :
    (Job.cancel env j).job.fsmCurrent = .canceled ∧ (Job.cancel env j).err = none := by
  simp only [cancelable, List.mem_cons, List.mem_singleton, List.not_mem_nil, or_false] at h
  rcases h with h | h | h | h | h <;>
    simp [Job.cancel, fireEvent, declaredEvents, transition, h]

/-- C3 witness: cancel on a concrete running job with a failing device
cancel still ends canceled. -/
theorem cancel_always_reaches_canceled_witness :
    (Job.cancel sampleEnvAllFail (sampleJob .running)).job.fsmCurrent = .canceled ∧
    (Job.cancel sampleEnvAllFail (sampleJob .running)).err = none :=
  cancel_always_reaches_canceled sampleEnvAllFail (sampleJob .running) (by decide)

/-- C4 counterexample: the cancelDone invocation on the success path
does not produce the engine's invalid-transition error. At a concrete
job in canceling, calling the undefined fsm.cancelDone raises a bare
TypeError — a different message than the error-callback string — and
emits no log effect; the full success-path cancel run from running
contains no invalid-transition log for cancelDone, yet still ends
canceled. -/
theorem cancelDone_typeerror_counterexample :
    fireEvent (sampleJob .canceling) .cancelDone =
      { job := sampleJob .canceling
        effects := []
        err := some (typeErrorMsg .cancelDone) } ∧
    typeErrorMsg .cancelDone ≠ fsmError "job-1" .cancelDone .canceling ∧
    Effect.logError (fsmError "job-1" .cancelDone .canceling)
      ∉ (Job.cancel sampleEnv (sampleJob .running)).effects ∧
    (Job.cancel sampleEnv (sampleJob .running)).err = none ∧
    (Job.cancel sampleEnv (sampleJob .running)).job.fsmCurrent = .canceled := by
  decide

/-- C4 amended: the transition table has no row at all for cancelDone,
so the fsm method is never defined; on the cancel success path (device
cancel does not fail) the cancelDone invocation raises a TypeError
with no error-callback log, the TypeError is caught inside cancel,
and the terminal canceled state is reached through the cancelFail row
(the catch block logs the stop failure), never through a cancelDone
transition. -/
theorem cancel_success_routes_through_cancelFail (env : Env) (j : JobSt)
    (hdev : env.cancelFails = false) (h : j.fsmCurrent ∈ cancelable) :
    (∀ s : JState, transition s .cancelDone = none) ∧
    (∀ j2 : JobSt, fireEvent j2 .cancelDone =
      { job := j2, effects := [], err := some (typeErrorMsg .cancelDone) }) ∧
    (Job.cancel env j).err = none ∧
    (Job.cancel env j).job.fsmCurrent = .canceled ∧
    Effect.logError "Job stop failure" ∈ (Job.cancel env j).effects ∧
    Effect.transition .cancelFail .canceling .canceled ∈ (Job.cancel env j).effects ∧
    ∀ a b : JState, Effect.transition .cancelDone a b ∉ (Job.cancel env j).effects := by
  refine ⟨fun s => by cases s <;> rfl, fun j2 => rfl, ?_⟩
  simp only [cancelable, List.mem_cons, List.mem_singleton, List.not_mem_nil, or_false] at h
  rcases h with h | h | h | h | h <;>
    simp [Job.cancel, fireEvent, declaredEvents, transition, onenterstate, h, hdev]

/-- C4 witness: concrete cancel from paused with a succeeding device
cancel. -/
theorem cancel_success_routes_through_cancelFail_witness :
    (∀ s : JState, transition s .cancelDone = none) ∧
    (∀ j2 : JobSt, fireEvent j2 .cancelDone =
      { job := j2, effects := [], err := some (typeErrorMsg .cancelDone) }) ∧
    (Job.cancel sampleEnv (sampleJob .paused)).err = none ∧
    (Job.cancel sampleEnv (sampleJob .paused)).job.fsmCurrent = .canceled ∧
    Effect.logError "Job stop failure" ∈ (Job.cancel sampleEnv (sampleJob .paused)).effects ∧
    Effect.transition .cancelFail .canceling .canceled
      ∈ (Job.cancel sampleEnv (sampleJob .paused)).effects ∧
    (∀ a b : JState,
      Effect.transition .cancelDone a b ∉ (Job.cancel sampleEnv (sampleJob .paused)).effects) :=
  cancel_success_routes_through_cancelFail sampleEnv (sampleJob .paused) rfl (by decide)

/-- C5: a device failure during start leaves the job back in ready,
during pause back in running, during resume back in paused; in each
case the matching Fail transition restores the prior settled state and
no error escapes to the caller. -/
theorem device_failure_restores_prior_settled_state (env : Env) (j : JobSt) :
    (j.fsmCurrent = .ready → env.startJobFails = true →
      (Job.start env j).job.fsmCurrent = .ready ∧ (Job.start env j).err = none) ∧
    (j.fsmCurrent = .running → env.pauseFails = true →
      (Job.pause env j).job.fsmCurrent = .running ∧ (Job.pause env j).err = none) ∧
    (j.fsmCurrent = .paused → env.resumeFails = true →
      (Job.resume env j).job.fsmCurrent = .paused ∧ (Job.resume env j).err = none) := by
  refine ⟨fun h1 h2 => ?_, fun h1 h2 => ?_, fun h1 h2 => ?_⟩ <;>
    simp [Job.start, Job.pause, Job.resume, fireEvent, declaredEvents, transition, h1, h2]

/-- C5 witness: the three fail paths at concrete jobs in the
all-operations-fail environment. -/
theorem device_failure_restores_prior_settled_state_witness :
    ((Job.start sampleEnvAllFail (sampleJob .ready)).job.fsmCurrent = .ready ∧
      (Job.start sampleEnvAllFail (sampleJob .ready)).err = none) ∧
    ((Job.pause sampleEnvAllFail (sampleJob .running)).job.fsmCurrent = .running ∧
      (Job.pause sampleEnvAllFail (sampleJob .running)).err = none) ∧
    ((Job.resume sampleEnvAllFail (sampleJob .paused)).job.fsmCurrent = .paused ∧
      (Job.resume sampleEnvAllFail (sampleJob .paused)).err = none) :=
  ⟨(device_failure_restores_prior_settled_state sampleEnvAllFail (sampleJob .ready)).1 rfl rfl,
   (device_failure_restores_prior_settled_state sampleEnvAllFail (sampleJob .running)).2.1 rfl rfl,
   (device_failure_restores_prior_settled_state sampleEnvAllFail (sampleJob .paused)).2.2 rfl rfl⟩

/-- C1 counterexample: a resume whose device call fails settles back in
paused through the resumeFail transition, yet the run contains no
persistence write at all — the persist-on-settled-transition claim
fails for the Fail-shaped transitions (the guard tests the substring
Done in the event name, which no Fail event contains). -/
theorem settled_fail_transition_not_persisted :
    (Job.resume sampleEnvAllFail (sampleJob .paused)).effects.filter Effect.isPersist = [] ∧
    Effect.transition .resumeFail .resuming .paused
      ∈ (Job.resume sampleEnvAllFail (sampleJob .paused)).effects ∧
    (Job.resume sampleEnvAllFail (sampleJob .paused)).err = none ∧
    (Job.resume sampleEnvAllFail (sampleJob .paused)).job.fsmCurrent = .paused := by
  decide

/-- C1 amended: every successful transition from a prior state emits,
in order, a persistence write (exactly when the event is one of
startDone, pauseDone, resumeDone, runningDone) followed by a broadcast
of the public projection; transitions via the other events — the Fail
events and the entries into transient states — emit the broadcast only;
and the first machine initialization emits nothing. -/
theorem done_transitions_persist_then_broadcast (j : JobSt) (e : JEvent) (t : JState)
    (h : transition j.fsmCurrent e = some t) :
    ((fireEvent j e).effects =
      Effect.transition e j.fsmCurrent t ::
        ((if e = .startDone ∨ e = .pauseDone ∨ e = .resumeDone ∨ e = .runningDone
          then [Effect.persist (dbAttrs (fireEvent j e).job)] else [])
          ++ [Effect.broadcast (Job.getJob (fireEvent j e).job)])) ∧
    (∀ (b u : String) (f : Option String) (i : Option JState),
      (Job.initializeJob b u f i).2 = []) := by
  refine ⟨?_, fun b u f i => rfl⟩
  obtain ⟨b, u, f, s, st, el, ms, r, pc⟩ := j
  cases e <;> cases s <;> (try exact Option.noConfusion h) <;>
    obtain rfl := (Option.some.inj h).symm <;>
    simp [fireEvent, declaredEvents, transition, onenterstate]

/-- C1 amended witness: the pauseDone transition at a concrete job
emits persist then broadcast. -/
theorem done_transitions_persist_then_broadcast_witness :
    ((fireEvent (sampleJob .pausing) .pauseDone).effects =
      Effect.transition .pauseDone .pausing .paused ::
        ((if (JEvent.pauseDone = .startDone ∨ JEvent.pauseDone = .pauseDone ∨
              JEvent.pauseDone = .resumeDone ∨ JEvent.pauseDone = .runningDone)
          then [Effect.persist (dbAttrs (fireEvent (sampleJob .pausing) .pauseDone).job)]
          else [])
          ++ [Effect.broadcast (Job.getJob (fireEvent (sampleJob .pausing) .pauseDone).job)])) ∧
    (∀ (b u : String) (f : Option String) (i : Option JState),
      (Job.initializeJob b u f i).2 = []) :=
  done_transitions_persist_then_broadcast (sampleJob .pausing) .pauseDone .paused rfl

/-- C8: the projection built by getJob carries the device id, the job
uuid, the state name, the file id (none encoding the literal false when
no file is attached) and the progress percentage verbatim, and for a
job that has never started both the started and the elapsed fields are
null. -/
theorem getJob_projection_shape (j : JobSt) (h : j.started = none) :
    (Job.getJob j).botUuid = j.botUuid ∧
    (Job.getJob j).uuid = j.uuid ∧
    (Job.getJob j).state = stateName j.fsmCurrent ∧
    (Job.getJob j).fileUuid = j.fileUuid ∧
    (Job.getJob j).percentComplete = j.percentComplete ∧
    (Job.getJob j).started = none ∧
    (Job.getJob j).elapsed = none := by
  simp [Job.getJob, jsTruthyNum, h]

/-- C8 witness: the projection of a concrete never-started job. -/
theorem getJob_projection_shape_witness :
    (Job.getJob (sampleJob .ready)).botUuid = (sampleJob .ready).botUuid ∧
    (Job.getJob (sampleJob .ready)).uuid = (sampleJob .ready).uuid ∧
    (Job.getJob (sampleJob .ready)).state = stateName (sampleJob .ready).fsmCurrent ∧
    (Job.getJob (sampleJob .ready)).fileUuid = (sampleJob .ready).fileUuid ∧
    (Job.getJob (sampleJob .ready)).percentComplete = (sampleJob .ready).percentComplete ∧
    (Job.getJob (sampleJob .ready)).started = none ∧
    (Job.getJob (sampleJob .ready)).elapsed = none :=
  getJob_projection_shape (sampleJob .ready) rfl

/-- C9: initializing the registry over an empty database persists
exactly the one default null-port record and registers exactly the one
corresponding handle; over any database the resulting registry is
nonempty. -/
theorem registry_synthesizes_default_record (db : List BotRecord) :
    (initializeBots []).1 = [initialBotObject] ∧
    (initializeBots []).2 = [("null", initialBotObject)] ∧
    (initializeBots db).2 ≠ [] := by
  refine ⟨rfl, rfl, ?_⟩
  cases db <;> simp [initializeBots]

/-- C10: each of the four supported commands, issued when its first FSM
event is valid in the current state, resolves without throwing and
replies with the public projection of the job state it leaves behind —
whatever the outcome of the device operations. -/
theorem processCommand_resolves_with_projection (env : Env) (j : JobSt) (c : String)
    (e : JEvent) (hc : commandEvent c = some e)
    (hv : (transition j.fsmCurrent e).isSome = true) :
    commandOk env j c := by
  by_cases h1 : c = "start"
  · subst h1
    obtain rfl : JEvent.start = e := by simpa [commandEvent] using hc
    cases hs : j.fsmCurrent <;> simp_all [transition]
    cases henv : env.startJobFails <;>
        simp [commandOk, Job.processCommand, Job.start, fireEvent, declaredEvents, transition, hs, henv]
  by_cases h2 : c = "pause"
  · subst h2
    obtain rfl : JEvent.pause = e := by simpa [commandEvent] using hc
    cases hs : j.fsmCurrent <;> simp_all [transition] <;>
      (cases henv : env.pauseFails) <;>
        simp [commandOk, Job.processCommand, Job.pause, fireEvent, declaredEvents, transition, hs, henv]
  by_cases h3 : c = "resume"
  · subst h3
    obtain rfl : JEvent.resume = e := by simpa [commandEvent] using hc
    cases hs : j.fsmCurrent <;> simp_all [transition] <;>
      (cases henv : env.resumeFails) <;>
        simp [commandOk, Job.processCommand, Job.resume, fireEvent, declaredEvents, transition, hs, henv]
  by_cases h4 : c = "cancel"
  · subst h4
    obtain rfl : JEvent.cancel = e := by simpa [commandEvent] using hc
    cases hs : j.fsmCurrent <;> simp_all [transition] <;>
      (cases henv : env.cancelFails) <;>
        simp [commandOk, Job.processCommand, Job.cancel, fireEvent, declaredEvents, transition, hs, henv]
  exact absurd hc (by simp [commandEvent, h1, h2, h3, h4])

/-- C10 witness: the pause command on a concrete running job whose
device pause throws still resolves with the projection of the final
state. -/
theorem processCommand_resolves_with_projection_witness :
    commandOk sampleEnvAllFail (sampleJob .running) "pause" :=
  processCommand_resolves_with_projection sampleEnvAllFail (sampleJob .running)
    "pause" .pause rfl rfl

end MCU
